import Mathlib

/-!
Shallow embedding of the blockchain integration-test harness in
`scripts/setup.js`, `scripts/phase1.js` and `scripts/phase2.js`.

Modelling conventions:
* A JavaScript thrown value is a `JsError`; `JsError.userError m` models
  `new Error(m)` and `JsError.typeError m` models a runtime `TypeError`.
* An awaited asynchronous action (a settled promise) is `Except JsError α`:
  `.ok` for fulfilment, `.error` for rejection.  The scripts run strictly
  sequentially, so the exception monad captures the whole control flow.
* `String.prototype.includes` is `strIncludes`, `toLowerCase` is
  `String.toLower`.
* JavaScript truthiness (used by `assert` and by `if (!CONTRACT_ADDRESS)`)
  is modelled by `JSValue.truthy` over an explicit value domain.
  Floating-point `NaN` is not modelled; the scripts only test booleans,
  BigInt values, strings and objects.
-/

/-- A JavaScript thrown value: an explicit `new Error(message)` or a
runtime `TypeError` (e.g. calling `.toLowerCase()` on `undefined`). -/
inductive JsError where
  | userError (message : String)
  | typeError (message : String)
deriving DecidableEq, Repr

/-- Accessor `error.message` in JavaScript: both error kinds carry a message. -/
def JsError.message : JsError → String
  | .userError m => m
  | .typeError m => m

/-- Model of `haystack.includes(needle)` — substring containment on strings,
as used by `expectRevert` in `scripts/setup.js` line 83/87. -/
def strIncludes (haystack needle : String) : Bool :=
  haystack.toList.tails.any (fun t => needle.toList.isPrefixOf t)

/-- A JavaScript value, as far as the harness inspects one: the falsy
values `undefined`, `null`, `false`, `0`, `""` and the truthy remainder
(`object` stands for any object, array or function, which are always
truthy). -/
inductive JSValue where
  | undefined
  | null
  | boolean (b : Bool)
  | number (n : Int)
  | string (s : String)
  | object
deriving DecidableEq, Repr

/-- JavaScript truthiness of a `JSValue` (what `if (v)` tests). -/
def JSValue.truthy : JSValue → Bool
  | .undefined => false
  | .null => false
  | .boolean b => b
  | .number n => n != 0
  | .string s => s != ""
  | .object => true

/-- The mutable `this.results` record of `TestBase`
(`scripts/setup.js` lines 35-39). -/
structure Results where
  passed : Nat
  failed : Nat
  errors : List String
deriving DecidableEq, Repr

/-- Value of `this.results` as initialised by the `TestBase` constructor. -/
def initialResults : Results := { passed := 0, failed := 0, errors := [] }

/-- Model of `TestBase.runTest(testName, testFunction)` (`scripts/setup.js`
lines 62-76).  The `try`/`catch` wraps the whole awaited action, and the
`catch` body only logs and mutates the results record, so `runTest`
itself never rejects: it is a total function from the action's outcome
to `(returned boolean, updated results)`. -/
def TestBase.runTest (r : Results) (testName : String)
    (testFunction : Except JsError Unit) : Bool × Results :=
  match testFunction with
  | .ok _ =>
      (true, { r with passed := r.passed + 1 })
  | .error e =>
      (false, { r with
                failed := r.failed + 1,
                errors := r.errors ++ [testName ++ ": " ++ e.message] })

/-- Model of `TestBase.assert(condition, message)` (`scripts/setup.js` lines
104-108): `if (!condition) throw new Error(message)`.  The condition is
an arbitrary JavaScript value tested for truthiness.  The function
touches no other harness state, so it is a pure function of the
condition and the message. -/
def TestBase.assert (condition : JSValue) (message : String) :
    Except JsError Unit :=
  if condition.truthy then .ok () else .error (.userError message)

/-- The decoded form of a log entry, as far as `findEvent` inspects it:
`parseLog(log).name`. -/
structure ParsedLog where
  name : String
deriving DecidableEq, Repr

/-- A transaction receipt, as far as `findEvent` inspects it:
`receipt.logs`. -/
structure Receipt (Log : Type) where
  logs : List Log

/-- The predicate of the arrow function passed to `receipt.logs.find` in
`findEvent` (`scripts/setup.js` lines 94-101): attempt to decode the log
(`parseLog` returns `none` when `interface.parseLog` throws, i.e. the
`catch { return false }` branch) and compare the decoded name. -/
def logMatches {Log : Type} (parseLog : Log → Option ParsedLog)
    (eventName : String) (log : Log) : Bool :=
  match parseLog log with
  | some parsed => parsed.name == eventName
  | none => false

/-- Model of `TestBase.findEvent(receipt, eventName)` (`scripts/setup.js` lines
93-102): `receipt.logs.find(...)`, returning the first matching log or
`undefined` (here `none`).  The ABI decoder `this.contract1.interface.parseLog`
is an external capability, passed in as `parseLog`. -/
def TestBase.findEvent {Log : Type} (parseLog : Log → Option ParsedLog)
    (receipt : Receipt Log) (eventName : String) : Option Log :=
  receipt.logs.find? (logMatches parseLog eventName)

/-- JavaScript's `Array.prototype.find` result as a value: a found
element is an object (truthy), an absent result is `undefined` (falsy).
Used where the scripts write `this.assert(event, ...)`. -/
def jsOfFound {Log : Type} : Option Log → JSValue
  | none => .undefined
  | some _ => .object

/-- The string a `console.warn` in `expectRevert` emits on an
expected-message mismatch (`scripts/setup.js` line 88). -/
def expectRevertWarning (expected actual : String) : String :=
  "   ⚠️  Expected \"" ++ expected ++ "\" but got \"" ++ actual ++ "\""

/-- The sentinel message thrown by `expectRevert` when the awaited
promise fulfils (`scripts/setup.js` line 81). -/
def revertSentinel : String := "Expected transaction to revert but it succeeded"

/-- The substring the `catch` guard tests to recognise the sentinel
(`scripts/setup.js` line 83). -/
def revertGuard : String := "Expected transaction to revert"

/-- Model of `TestBase.expectRevert(promise, expectedMessage)` (`scripts/setup.js`
lines 78-91).  Control flow translated branch by branch:
* the `try` body awaits the promise and, on fulfilment, throws the
  sentinel error;
* the `catch` re-throws any caught error whose message contains
  `"Expected transaction to revert"` (this recognises the sentinel, but
  also re-throws a genuine rejection whose message happens to contain
  that substring);
* otherwise, `if (expectedMessage && !error.message.toLowerCase()
  .includes(expectedMessage.toLowerCase()))` emits a warning.  An absent
  (`none`) or empty expected message is falsy, so no check happens.
The result carries the list of warnings emitted on the success path. -/
def TestBase.expectRevert (promise : Except JsError Unit)
    (expectedMessage : Option String) : Except JsError (List String) :=
  match promise with
  | .ok _ =>
      -- sentinel thrown, caught, recognised by the guard, re-thrown
      .error (.userError revertSentinel)
  | .error e =>
      if strIncludes e.message revertGuard then
        .error e
      else
        match expectedMessage with
        | none => .ok []
        | some exp =>
            if exp == "" then .ok []
            else if strIncludes e.message.toLower exp.toLower then .ok []
            else .ok [expectRevertWarning exp e.message]

/-- Model of `RegistrationEdgeTests.expectRevert(promise, expectedMessage)` — the
override in `scripts/phase2.js` lines 159-178.  Same sentinel guard as
the base version, but the `catch` body unconditionally evaluates
`expectedMessage.toLowerCase()`: when `expectedMessage` is absent
(`undefined`), that expression raises a `TypeError` inside the `catch`,
which propagates out of the method (the message string of such a
`TypeError` is runtime-dependent).  On the success path it returns
`true` together with the warnings emitted. -/
def RegistrationEdgeTests.expectRevert (promise : Except JsError Unit)
    (expectedMessage : Option String) : Except JsError (Bool × List String) :=
  match promise with
  | .ok _ =>
      .error (.userError revertSentinel)
  | .error e =>
      if strIncludes e.message revertGuard then
        .error e
      else
        match expectedMessage with
        | none =>
            .error (.typeError
              "Cannot read properties of undefined (reading toLowerCase)")
        | some exp =>
            if strIncludes e.message.toLower exp.toLower then .ok (true, [])
            else .ok (true, [expectRevertWarning exp e.message])

/-- The `try` body of an inline "should fail" block in `scripts/phase2.js`
(lines 43-59, 94-104, 112-122): await the operation and, if it fulfils,
throw the given sentinel error. -/
def tryShouldFailBody (operation : Except JsError Unit)
    (sentinelMessage : String) : Except JsError Unit :=
  match operation with
  | .ok _ => .error (.userError sentinelMessage)
  | .error e => .error e

/-- A whole inline "should fail" `try`/`catch` block of `scripts/phase2.js`:
the `catch (error)` body only calls `console.log` (and, in
`testInsufficientStake`, inspects `error.message` to print a soft
warning), so every error — including the sentinel thrown on unexpected
success — is swallowed and the block completes normally. -/
def shouldFailBlock (operation : Except JsError Unit)
    (sentinelMessage : String) : Except JsError Unit :=
  match tryShouldFailBody operation sentinelMessage with
  | .ok v => .ok v
  | .error _ => .ok ()

/-- Body of the scenario `Registration Failure - Insufficient Stake`
(`scripts/phase2.js` lines 31-83), as the function passed to `runTest`.
Chain interactions are parameters: `registration` is the combined
outcome of `registerAPI(...)` and `tx.wait()` with the insufficient
stake, `nextApiIdAfter` the value `this.contract1.nextApiId()` returns
afterwards. -/
def testInsufficientStakeBody (registration : Except JsError Unit)
    (nextApiIdAfter : Int) : Except JsError Unit := do
  let _ ← shouldFailBlock registration
      "Transaction should have reverted due to insufficient stake"
  TestBase.assert (.boolean (nextApiIdAfter == 2))
      "Next API ID should not change after failed registration"

/-- Body of the scenario `Registration Failure - Invalid Parameters`
(`scripts/phase2.js` lines 87-155), as the function passed to `runTest`.
Chain interactions are parameters: `emptyEndpointOp` and `zeroPriceOp`
are the send-and-wait outcomes of the two invalid registrations,
`validRegistration` the outcome of the valid one, `parseLog` and
`validReceipt` feed the event lookup, and the `api*` arguments are the
fields read back by `getAPI(apiId)`. -/
def testInvalidParametersBody {Log : Type}
    (emptyEndpointOp zeroPriceOp : Except JsError Unit)
    (validRegistration : Except JsError Unit)
    (parseLog : Log → Option ParsedLog) (validReceipt : Receipt Log)
    (apiEndpoint : String) (apiPricePerCall : Int) (apiActive : Bool) :
    Except JsError Unit := do
  let _ ← shouldFailBlock emptyEndpointOp
      "Empty endpoint should have been rejected"
  let _ ← shouldFailBlock zeroPriceOp
      "Zero price should have been rejected"
  let _ ← validRegistration
  let event := TestBase.findEvent parseLog validReceipt "APIRegistered"
  let _ ← TestBase.assert (jsOfFound event)
      "APIRegistered event should be emitted for valid registration"
  let _ ← TestBase.assert (.boolean (apiEndpoint == "https://api.valid.com/v1/test"))
      "Endpoint should match"
  let _ ← TestBase.assert (.boolean (apiPricePerCall == 2000000000000000))
      "Price should match"
  TestBase.assert (.boolean apiActive) "API should be active"

/-- The environment-derived configuration of `scripts/setup.js` lines
6-8: `PRIVATE_KEY`, `RPC_URL` (already defaulted) and
`CONTRACT_ADDRESS`; `none` models an unset variable. -/
structure Config where
  privateKey : Option String
  rpcUrl : String
  contractAddress : Option String
deriving DecidableEq, Repr

/-- Reading `CONTRACT_ADDRESS` as a JavaScript value, for the truthiness test
`if (!CONTRACT_ADDRESS)`. -/
def Config.contractAddressValue (cfg : Config) : JSValue :=
  match cfg.contractAddress with
  | none => .undefined
  | some s => .string s

/-- The configuration-error message thrown by `setupWallets`
(`scripts/setup.js` line 46). -/
def configErrorMessage : String := "❌ Please set CONTRACT_ADDRESS in .env file"

/-- What `setupWallets` establishes on success: the chain connection,
the two identities and the two contract bindings of `scripts/setup.js`
lines 49-55.  `wallet2Key` is the random key `ethers.Wallet.createRandom()`
produced, supplied as the parameter `freshKey`. -/
structure HarnessConn where
  providerUrl : String
  wallet1Key : Option String
  wallet2Key : String
  boundContractAddress : String
deriving DecidableEq, Repr

/-- Model of `TestBase.setupWallets()` (`scripts/setup.js` lines 44-60): throws
the configuration error when `CONTRACT_ADDRESS` is falsy (unset or
empty); otherwise connects the provider, loads wallet 1, binds the
contract, and creates the fresh wallet 2 with its second binding. -/
def TestBase.setupWallets (cfg : Config) (freshKey : String) :
    Except JsError HarnessConn :=
  if (cfg.contractAddressValue.truthy : Bool) = false then
    .error (.userError configErrorMessage)
  else
    match cfg.contractAddress with
    | none => .error (.userError configErrorMessage)
    | some addr =>
        .ok { providerUrl := cfg.rpcUrl,
              wallet1Key := cfg.privateKey,
              wallet2Key := freshKey,
              boundContractAddress := addr }

/-- The `TestBase` constructor (`scripts/setup.js` lines 34-42):
initialise `this.results`, then `setupWallets()`.  A `setupWallets`
throw propagates out of `new TestBase()`, so no harness instance
exists in that case. -/
def TestBase.construct (cfg : Config) (freshKey : String) :
    Except JsError (Results × HarnessConn) :=
  (TestBase.setupWallets cfg freshKey).map (fun conn => (initialResults, conn))

/-- Running a phase's scenarios in order through `runTest`, threading
`this.results` (the pattern of `runFoundationTests`,
`runRegistrationTests`, `runPaymentTests`). -/
def runPhase (scenarios : List (String × Except JsError Unit))
    (r : Results) : Results :=
  scenarios.foldl (fun acc s => (TestBase.runTest acc s.1 s.2).2) r

/-- Model of `TestBase.printResults()` (`scripts/setup.js` lines 110-118): a pure
reader of `this.results` producing the printed lines; it mutates
nothing. -/
def TestBase.printResults (r : Results) : List String :=
  let total := r.passed + r.failed
  let header := "📊 Results: " ++ toString r.passed ++ "/" ++ toString total
      ++ " passed"
  if r.failed > 0 then
    header :: "❌ Failures:" :: r.errors.map (fun e => "  • " ++ e)
  else
    [header]

/-- The outcome of a whole top-level runner invocation (the `try` body of
`main` in `scripts/phase1.js` lines 161-163 and its analogues): construct
the harness, run every scenario through `runTest`, print the results.
`runTest` is total and `printResults` only reads, so after a successful
construction nothing can throw. -/
def runnerOutcome (cfg : Config) (freshKey : String)
    (scenarios : List (String × Except JsError Unit)) :
    Except JsError Results :=
  (TestBase.construct cfg freshKey).map
    (fun init => runPhase scenarios init.1)

/-- The process exit status of a phase runner (`main` in
`scripts/phase1.js` lines 160-173): `process.exit(1)` in the `catch` when
an exception escapes the runner, otherwise the natural exit status 0. -/
def phaseExitStatus (cfg : Config) (freshKey : String)
    (scenarios : List (String × Except JsError Unit)) : Nat :=
  match runnerOutcome cfg freshKey scenarios with
  | .ok _ => 0
  | .error _ => 1

/-- Helper: characterisation of `List.find?` — the result is the first
element satisfying the predicate, with every earlier element failing it;
a `none` result means no element satisfies it. -/
theorem find_first_spec {α : Type} (p : α → Bool) (l : List α) :
    (match l.find? p with
     | some a => ∃ pre post, l = pre ++ a :: post ∧ p a = true
         ∧ ∀ x ∈ pre, p x = false
     | none => ∀ x ∈ l, p x = false) := by
  induction l with
  | nil => simp
  | cons a l ih =>
      cases ha : p a with
      | true =>
          rw [List.find?_cons_of_pos _ ha]
          exact ⟨[], l, rfl, ha, by simp⟩
      | false =>
          rw [List.find?_cons_of_neg _ (by simp [ha])]
          cases hf : l.find? p with
          | some b =>
              have ih2 : ∃ pre post, l = pre ++ b :: post ∧ p b = true
                  ∧ ∀ x ∈ pre, p x = false := by
                rw [hf] at ih; exact ih
              obtain ⟨pre, post, hl, hb, hpre⟩ := ih2
              refine ⟨a :: pre, post, by rw [hl]; rfl, hb, ?_⟩
              intro x hx
              rcases List.mem_cons.mp hx with h | h
              · subst h; exact ha
              · exact hpre x h
          | none =>
              have ih2 : ∀ x ∈ l, p x = false := by
                rw [hf] at ih; exact ih
              intro x hx
              rcases List.mem_cons.mp hx with h | h
              · subst h; exact ha
              · exact ih2 x h

/-- Helper: field-level effect of `runTest` on a fulfilled action. -/
theorem runTest_ok_state (r : Results) (n : String) :
    (TestBase.runTest r n (Except.ok ())).2.passed = r.passed + 1
    ∧ (TestBase.runTest r n (Except.ok ())).2.failed = r.failed
    ∧ (TestBase.runTest r n (Except.ok ())).2.errors = r.errors :=
  ⟨rfl, rfl, rfl⟩

/-- Helper: field-level effect of `runTest` on a rejected action. -/
theorem runTest_error_state (r : Results) (n : String) (e : JsError) :
    (TestBase.runTest r n (Except.error e)).2.passed = r.passed
    ∧ (TestBase.runTest r n (Except.error e)).2.failed = r.failed + 1
    ∧ (TestBase.runTest r n (Except.error e)).2.errors
        = r.errors ++ [n ++ ": " ++ e.message] :=
  ⟨rfl, rfl, rfl⟩

/-- Helper: the aggregate invariants of a `runPhase` fold, from an
arbitrary starting results record: passed+failed grows by the number of
scenarios, the error list grows in step with the failed count, and the
starting error list stays a prefix of the final one. -/
theorem runPhase_step_invariants (scenarios : List (String × Except JsError Unit)) :
    ∀ r : Results,
      ((runPhase scenarios r).passed + (runPhase scenarios r).failed
          = r.passed + r.failed + scenarios.length)
      ∧ ((runPhase scenarios r).errors.length + r.failed
          = (runPhase scenarios r).failed + r.errors.length)
      ∧ r.errors <+: (runPhase scenarios r).errors := by
  induction scenarios with
  | nil =>
      intro r
      refine ⟨?_, ?_, ?_⟩
      · show r.passed + r.failed
            = r.passed + r.failed + ([] : List (String × Except JsError Unit)).length
        simp
      · show r.errors.length + r.failed = r.failed + r.errors.length
        omega
      · show r.errors <+: r.errors
        exact List.prefix_refl _
  | cons s rest ih =>
      intro r
      have hrun : runPhase (s :: rest) r
          = runPhase rest (TestBase.runTest r s.1 s.2).2 := rfl
      obtain ⟨h1, h2, h3⟩ := ih (TestBase.runTest r s.1 s.2).2
      rw [hrun]
      cases hs : s.2 with
      | ok v =>
          cases v
          rw [hs] at h1 h2 h3
          obtain ⟨hp, hf2, he⟩ := runTest_ok_state r s.1
          rw [hp, hf2] at h1
          rw [hf2, he] at h2
          rw [he] at h3
          refine ⟨?_, h2, h3⟩
          simp only [List.length_cons]
          omega
      | error e =>
          rw [hs] at h1 h2 h3
          obtain ⟨hp, hf2, he⟩ := runTest_error_state r s.1 e
          rw [hp, hf2] at h1
          rw [hf2, he] at h2
          rw [he] at h3
          refine ⟨?_, ?_, ?_⟩
          · simp only [List.length_cons]
            omega
          · simp only [List.length_append, List.length_cons, List.length_nil] at h2
            omega
          · exact List.IsPrefix.trans (List.prefix_append _ _) h3

/-- C1: `runTest(name, action)` never propagates an exception raised by
the action (it is a total function of the action's outcome): on normal
completion it increments the passed count and returns `true`; on any
raised error it increments the failed count, appends
`"<name>: <error message>"` to the errors list and returns `false`. -/
theorem runTest_isolates_failures (r : Results) (testName : String) :
    (TestBase.runTest r testName (Except.ok ())
        = (true, { r with passed := r.passed + 1 }))
    ∧ ∀ e : JsError, TestBase.runTest r testName (Except.error e)
        = (false, { r with
                    failed := r.failed + 1,
                    errors := r.errors ++ [testName ++ ": " ++ e.message] }) :=
  ⟨rfl, fun _ => rfl⟩

/-- C2: after any sequence of `runTest` invocations starting from the
constructor's results record, passed + failed equals the number of
invocations and the errors list has exactly `failed` entries; moreover
each `runTest` step only appends to the errors list (the previous list
is a prefix of the new one), and `printResults` is a pure reader of the
record, so no harness operation removes or modifies entries. -/
theorem results_record_invariants (scenarios : List (String × Except JsError Unit)) :
    ((runPhase scenarios initialResults).passed
        + (runPhase scenarios initialResults).failed = scenarios.length)
    ∧ ((runPhase scenarios initialResults).errors.length
        = (runPhase scenarios initialResults).failed)
    ∧ (∀ (r : Results) (n : String) (a : Except JsError Unit),
        r.errors <+: (TestBase.runTest r n a).2.errors)
    ∧ (∀ r : Results, r.errors <+: (runPhase scenarios r).errors) := by
  obtain ⟨h1, h2, h3⟩ := runPhase_step_invariants scenarios initialResults
  refine ⟨?_, ?_, ?_, fun r => (runPhase_step_invariants scenarios r).2.2⟩
  · simpa [initialResults] using h1
  · simpa [initialResults] using h2
  · intro r n a
    cases a with
    | ok v => cases v; exact (runTest_ok_state r n).2.2 ▸ List.prefix_refl _
    | error e => exact (runTest_error_state r n e).2.2 ▸ List.prefix_append _ _

/-- C4: `findEvent(receipt, eventName)` returns the first log of
`receipt.logs` whose decoded name equals `eventName` (every earlier log
either fails to decode or decodes to a different name), and `none` when
no log matches; a log that fails to decode is skipped as a non-match
(`logMatches` is total — the `try`/`catch` around `parseLog` never lets
a decode failure escape). -/
theorem findEvent_first_match {Log : Type} (parseLog : Log → Option ParsedLog)
    (receipt : Receipt Log) (eventName : String) :
    (match TestBase.findEvent parseLog receipt eventName with
     | some l => ∃ pre post, receipt.logs = pre ++ l :: post
         ∧ logMatches parseLog eventName l = true
         ∧ ∀ x ∈ pre, logMatches parseLog eventName x = false
     | none => ∀ x ∈ receipt.logs, logMatches parseLog eventName x = false) :=
  find_first_spec (logMatches parseLog eventName) receipt.logs

/-- C6: `assert(condition, message)` raises an error carrying exactly
`message` when the boolean condition is false, and returns normally when
it is true; it is a pure function of the condition and the message, so
it touches no harness state. -/
theorem assert_boolean_spec (message : String) :
    TestBase.assert (JSValue.boolean true) message = Except.ok ()
    ∧ TestBase.assert (JSValue.boolean false) message
        = Except.error (JsError.userError message)
    ∧ ∀ b : Bool,
        (TestBase.assert (JSValue.boolean b) message = Except.ok () ↔ b = true) := by
  refine ⟨rfl, rfl, fun b => ?_⟩
  cases b
  · constructor
    · intro h
      exact absurd h (by simp [TestBase.assert, JSValue.truthy])
    · intro h
      exact absurd h (by simp)
  · simp [TestBase.assert, JSValue.truthy]

/-- C9: `assert` tests JavaScript truthiness, not boolean identity: it
passes for every truthy value and throws for every falsy value
(`false`, `undefined`, `null`, `0`, `""`); in particular
`assert(findEvent(receipt, name), message)` passes exactly when
`findEvent` returned a log object, so an absent event surfaces as an
assertion failure carrying the caller's message. -/
theorem assert_truthiness_spec {Log : Type} (parseLog : Log → Option ParsedLog)
    (receipt : Receipt Log) (eventName message : String) :
    (∀ v : JSValue, TestBase.assert v message = Except.ok () ↔ v.truthy = true)
    ∧ TestBase.assert JSValue.undefined message
        = Except.error (JsError.userError message)
    ∧ TestBase.assert JSValue.null message
        = Except.error (JsError.userError message)
    ∧ TestBase.assert (JSValue.boolean false) message
        = Except.error (JsError.userError message)
    ∧ TestBase.assert (JSValue.number 0) message
        = Except.error (JsError.userError message)
    ∧ TestBase.assert (JSValue.string "") message
        = Except.error (JsError.userError message)
    ∧ TestBase.assert JSValue.object message = Except.ok ()
    ∧ (TestBase.assert (jsOfFound (TestBase.findEvent parseLog receipt eventName))
          message = Except.ok ()
        ↔ (TestBase.findEvent parseLog receipt eventName).isSome = true) := by
  have hmain : ∀ v : JSValue,
      TestBase.assert v message = Except.ok () ↔ v.truthy = true := by
    intro v
    unfold TestBase.assert
    by_cases h : v.truthy
    · simp [h]
    · simp [h]
  refine ⟨hmain, rfl, rfl, rfl, by simp [TestBase.assert, JSValue.truthy],
      rfl, rfl, ?_⟩
  cases hf : TestBase.findEvent parseLog receipt eventName with
  | none =>
      simp [jsOfFound, TestBase.assert, JSValue.truthy]
  | some l =>
      simp [jsOfFound, TestBase.assert, JSValue.truthy]

/-- Helper: recogniser for a `TypeError` outcome of an awaited action. -/
def raisesTypeError {α : Type} : Except JsError α → Bool
  | .error (.typeError _) => true
  | _ => false

/-- C3 counterexample: the base `expectRevert` does not succeed on every
rejecting promise.  A promise rejecting with a message that contains the
guard substring `"Expected transaction to revert"` is re-thrown by the
`catch` guard, so `expectRevert` itself raises even though the promise
rejected (and even though the supplied expected message is mismatched,
which the claim says could at most warn). -/
theorem expectRevert_guard_rejection_cex :
    TestBase.expectRevert
        (Except.error (JsError.userError "Expected transaction to revert"))
        (some "insufficient stake")
      = Except.error (JsError.userError "Expected transaction to revert")
    ∧ (TestBase.expectRevert
        (Except.error (JsError.userError "Expected transaction to revert"))
        (some "insufficient stake")).isOk = false := by
  have hg : strIncludes
      (JsError.userError "Expected transaction to revert").message revertGuard
      = true := by decide
  constructor
  · simp [TestBase.expectRevert, hg]
  · simp [TestBase.expectRevert, hg, Except.isOk, Except.toBool]

/-- C3 amended: `expectRevert(promise, expectedMessage)` fails iff the
promise resolves or the rejection's message contains the substring
`"Expected transaction to revert"` (the sentinel guard re-throws such
rejections); on resolution it raises the error
`"Expected transaction to revert but it succeeded"`; on any other
rejection it succeeds, a case-insensitive mismatch with a non-empty
`expectedMessage` emitting exactly one warning and never a failure. -/
theorem expectRevert_spec (p : Except JsError Unit) (em : Option String) :
    ((∃ w, TestBase.expectRevert p em = Except.ok w) ↔
      ∃ e, p = Except.error e ∧ strIncludes e.message revertGuard = false)
    ∧ (TestBase.expectRevert (Except.ok ()) em
        = Except.error (JsError.userError revertSentinel))
    ∧ (∀ (e : JsError) (exp : String),
        strIncludes e.message revertGuard = false → exp ≠ "" →
        TestBase.expectRevert (Except.error e) (some exp)
          = Except.ok (if strIncludes e.message.toLower exp.toLower then []
                       else [expectRevertWarning exp e.message])) := by
  refine ⟨⟨?_, ?_⟩, rfl, ?_⟩
  · rintro ⟨w, hw⟩
    cases p with
    | ok v =>
        cases v
        simp [TestBase.expectRevert] at hw
    | error e =>
        refine ⟨e, rfl, ?_⟩
        cases hg : strIncludes e.message revertGuard with
        | true => simp [TestBase.expectRevert, hg] at hw
        | false => rfl
  · rintro ⟨e, hp, hg⟩
    subst hp
    cases em with
    | none => exact ⟨[], by simp [TestBase.expectRevert, hg]⟩
    | some exp =>
        by_cases he : exp = ""
        · exact ⟨[], by simp [TestBase.expectRevert, hg, he]⟩
        · by_cases hm : strIncludes e.message.toLower exp.toLower
          · exact ⟨[], by simp [TestBase.expectRevert, hg, he, hm]⟩
          · exact ⟨[expectRevertWarning exp e.message],
              by simp [TestBase.expectRevert, hg, he, hm]⟩
  · intro e exp hg he
    by_cases hm : strIncludes e.message.toLower exp.toLower
    · simp [TestBase.expectRevert, hg, he, hm]
    · simp [TestBase.expectRevert, hg, he, hm]

/-- C3 witness: applying the amended theorem at a concrete rejection
whose message does not contain the guard substring and does not contain
the expected substring: the call succeeds with exactly one warning. -/
theorem expectRevert_spec_witness :
    TestBase.expectRevert (Except.error (JsError.userError "gas too low"))
        (some "insufficient stake")
      = Except.ok (if strIncludes (JsError.userError "gas too low").message.toLower
                        "insufficient stake".toLower then []
                   else [expectRevertWarning "insufficient stake"
                          (JsError.userError "gas too low").message]) :=
  (expectRevert_spec (Except.error (JsError.userError "gas too low"))
      (some "insufficient stake")).2.2
    (JsError.userError "gas too low") "insufficient stake" (by decide) (by decide)

/-- C10 counterexample: it is not true that the phase-2 override raises
a `TypeError` on every rejecting promise when `expectedMessage` is
absent: a rejection whose message contains
`"Expected transaction to revert"` is re-thrown by the guard before
`expectedMessage.toLowerCase()` is ever evaluated, so the raised error
is the original user error, not a `TypeError` (and the base version
does not accept such a rejection either). -/
theorem phase2_expectRevert_guard_cex :
    RegistrationEdgeTests.expectRevert
        (Except.error (JsError.userError "Expected transaction to revert"))
        none
      = Except.error (JsError.userError "Expected transaction to revert")
    ∧ raisesTypeError (RegistrationEdgeTests.expectRevert
        (Except.error (JsError.userError "Expected transaction to revert"))
        none) = false
    ∧ (TestBase.expectRevert
        (Except.error (JsError.userError "Expected transaction to revert"))
        none).isOk = false := by
  have hg : strIncludes
      (JsError.userError "Expected transaction to revert").message revertGuard
      = true := by decide
  refine ⟨?_, ?_, ?_⟩
  · simp [RegistrationEdgeTests.expectRevert, hg]
  · simp [RegistrationEdgeTests.expectRevert, hg, raisesTypeError]
  · simp [TestBase.expectRevert, hg, Except.isOk, Except.toBool]

/-- C10 amended: for every promise rejecting with a message that does
not contain the guard substring `"Expected transaction to revert"`, the
phase-2 override called without `expectedMessage` raises a `TypeError`
(from lower-casing `undefined`) instead of reporting the rejection as
the expected outcome, while the base version with an absent
`expectedMessage` accepts the rejection and succeeds. -/
theorem phase2_expectRevert_requires_message (e : JsError)
    (h : strIncludes e.message revertGuard = false) :
    raisesTypeError (RegistrationEdgeTests.expectRevert (Except.error e) none)
        = true
    ∧ (RegistrationEdgeTests.expectRevert (Except.error e) none).isOk = false
    ∧ TestBase.expectRevert (Except.error e) none = Except.ok [] := by
  refine ⟨?_, ?_, ?_⟩
  · simp [RegistrationEdgeTests.expectRevert, h, raisesTypeError]
  · simp [RegistrationEdgeTests.expectRevert, h, Except.isOk, Except.toBool]
  · simp [TestBase.expectRevert, h]

/-- C10 witness: the amended theorem applied at a concrete ordinary
rejection. -/
theorem phase2_expectRevert_requires_message_witness :
    raisesTypeError (RegistrationEdgeTests.expectRevert
        (Except.error (JsError.userError "insufficient stake")) none) = true
    ∧ (RegistrationEdgeTests.expectRevert
        (Except.error (JsError.userError "insufficient stake")) none).isOk = false
    ∧ TestBase.expectRevert
        (Except.error (JsError.userError "insufficient stake")) none
        = Except.ok [] :=
  phase2_expectRevert_requires_message (JsError.userError "insufficient stake")
    (by decide)

/-- Helper: a decode capability under which every log decodes to the
event name `APIRegistered`, for evaluating the phase-2 scenario bodies
at concrete inputs. -/
def parseLogAPIRegistered : Unit → Option ParsedLog :=
  fun _ => some { name := "APIRegistered" }

/-- C5 evaluation: the inline "should fail" try/catch blocks of the
phase-2 runners swallow their own sentinel error instead of re-throwing
it.  First conjunct: a `shouldFailBlock` completes normally for every
operation outcome, so in particular the sentinel thrown when the
operation unexpectedly succeeds never reaches the outer `runTest`.
Second conjunct: with the empty-endpoint registration unexpectedly
succeeding (and the rest of the scenario behaving normally), the whole
`Registration Failure - Invalid Parameters` scenario is recorded as
passed.  Third conjunct: in `Registration Failure - Insufficient Stake`
with the registration unexpectedly succeeding, the scenario fails only
through the later `nextApiId` assertion — the sentinel message about the
transaction is not what reaches `runTest`. -/
theorem shouldFail_sentinel_swallowed :
    (∀ (op : Except JsError Unit) (m : String),
        shouldFailBlock op m = Except.ok ())
    ∧ (TestBase.runTest initialResults "Registration Failure - Invalid Parameters"
        (testInvalidParametersBody (Except.ok ())
          (Except.error (JsError.userError "execution reverted"))
          (Except.ok ()) parseLogAPIRegistered ⟨[()]⟩
          "https://api.valid.com/v1/test" 2000000000000000 true)
        = (true, { passed := 1, failed := 0, errors := [] }))
    ∧ (testInsufficientStakeBody (Except.ok ()) 3
        = Except.error (JsError.userError
            "Next API ID should not change after failed registration")) := by
  refine ⟨?_, ?_, ?_⟩
  · intro op m
    cases op with
    | ok v => cases v; rfl
    | error e => rfl
  · rfl
  · rfl

/-- C7: harness construction fails fast: when the contract address is
absent from the configuration, `setupWallets` — and hence the `TestBase`
constructor — throws the configuration error, and no connection record
(chain connection, identities, contract bindings) is produced;
conversely a successful construction implies a present, non-empty
contract address. -/
theorem setupWallets_requires_address (cfg : Config) (freshKey : String) :
    (cfg.contractAddress = none →
      TestBase.setupWallets cfg freshKey
          = Except.error (JsError.userError configErrorMessage)
      ∧ TestBase.construct cfg freshKey
          = Except.error (JsError.userError configErrorMessage))
    ∧ (∀ conn, TestBase.setupWallets cfg freshKey = Except.ok conn →
        ∃ addr, cfg.contractAddress = some addr ∧ addr ≠ "") := by
  constructor
  · intro h
    have h1 : TestBase.setupWallets cfg freshKey
        = Except.error (JsError.userError configErrorMessage) := by
      simp [TestBase.setupWallets, Config.contractAddressValue, h, JSValue.truthy]
    exact ⟨h1, by simp [TestBase.construct, h1, Except.map]⟩
  · intro conn hc
    cases ha : cfg.contractAddress with
    | none =>
        exfalso
        simp [TestBase.setupWallets, Config.contractAddressValue, ha,
          JSValue.truthy] at hc
    | some addr =>
        refine ⟨addr, rfl, ?_⟩
        intro he
        subst he
        simp [TestBase.setupWallets, Config.contractAddressValue, ha,
          JSValue.truthy] at hc

/-- C7 witness: the theorem applied at a configuration with no contract
address. -/
theorem setupWallets_requires_address_witness :
    TestBase.setupWallets
        { privateKey := some "0xkey", rpcUrl := "https://rpc.example",
          contractAddress := none }
        "freshkey"
      = Except.error (JsError.userError configErrorMessage) :=
  ((setupWallets_requires_address
      { privateKey := some "0xkey", rpcUrl := "https://rpc.example",
        contractAddress := none }
      "freshkey").1 rfl).1

/-- C8: the phase runner exits with status 1 exactly when an exception
escapes the top-level runner invocation, which — `runTest` being total
and `printResults` a pure reader — happens exactly when harness
construction fails; the scenario outcomes never influence the status, so
a run whose scenarios all fail but raise nothing uncaught exits 0. -/
theorem phase_exit_status_spec (cfg : Config) (freshKey : String)
    (scenarios : List (String × Except JsError Unit)) :
    ((phaseExitStatus cfg freshKey scenarios = 1)
        ↔ (runnerOutcome cfg freshKey scenarios).isOk = false)
    ∧ ((phaseExitStatus cfg freshKey scenarios = 0)
        ↔ (runnerOutcome cfg freshKey scenarios).isOk = true)
    ∧ ((runnerOutcome cfg freshKey scenarios).isOk
        = (TestBase.setupWallets cfg freshKey).isOk)
    ∧ ((TestBase.setupWallets cfg freshKey).isOk = true →
        phaseExitStatus cfg freshKey scenarios = 0) := by
  cases h : TestBase.setupWallets cfg freshKey with
  | ok conn =>
      have hro : runnerOutcome cfg freshKey scenarios
          = Except.ok (runPhase scenarios initialResults) := by
        simp [runnerOutcome, TestBase.construct, h, Except.map]
      refine ⟨?_, ?_, ?_, ?_⟩ <;>
        simp [phaseExitStatus, hro, h, Except.isOk, Except.toBool]
  | error e =>
      have hro : runnerOutcome cfg freshKey scenarios = Except.error e := by
        simp [runnerOutcome, TestBase.construct, h, Except.map]
      refine ⟨?_, ?_, ?_, ?_⟩ <;>
        simp [phaseExitStatus, hro, h, Except.isOk, Except.toBool]

/-- C8 witness: a run with a present contract address whose scenarios
all fail still exits with status 0. -/
theorem phase_exit_status_witness :
    phaseExitStatus
        { privateKey := some "0xkey",
          rpcUrl := "https://ethereum-sepolia-rpc.publicnode.com",
          contractAddress := some "0xContract" }
        "freshkey"
        [("Contract Constants and Setup",
            Except.error (JsError.userError "Min stake should be 0.1 ETH")),
         ("Basic API Registration",
            Except.error (JsError.userError "APIRegistered event should be emitted"))]
      = 0 :=
  (phase_exit_status_spec
      { privateKey := some "0xkey",
        rpcUrl := "https://ethereum-sepolia-rpc.publicnode.com",
        contractAddress := some "0xContract" }
      "freshkey"
      [("Contract Constants and Setup",
          Except.error (JsError.userError "Min stake should be 0.1 ETH")),
       ("Basic API Registration",
          Except.error (JsError.userError "APIRegistered event should be emitted"))]
    ).2.2.2 rfl
